import Mathlib

/-!
Verification development for the deflix-stremio stream-resolution service.

The embedding follows `src/main.go` (flags, cache loading, routing, periodic
persistence and shutdown).  Components whose bodies live outside `src/`
(the Stremio handlers, the search aggregator, the redirect resolver) are
modelled from the specification; each such definition carries a doc comment
saying so.
-/

namespace DeflixStremio

/-! ## Flags and startup configuration (`src/main.go` lines 31-101)

Go's `flag.String name default usage` registers a flag and returns a pointer
to a cell holding `default`; `flag.Parse` later overwrites the cells from the
command line.  `main.go` initialises each package-level variable by
dereferencing its flag pointer at package-initialisation time
(`bindAddr = *flag.String(...)`), which copies the default out of the cell
before `flag.Parse` ever runs. -/

/-- The mutable cells `flag.String` / `flag.Int` register, one per flag. -/
structure FlagCells where
  bindAddrCell : String
  portCell : Int
  streamURLaddrCell : String
  cachePathCell : String
  cacheMaxBytesCell : Int
  deriving DecidableEq, Repr

/-- Cell contents right after registration: each cell holds its default
(`src/main.go` lines 32-39). -/
def registeredCells : FlagCells :=
  { bindAddrCell := "localhost"
    portCell := 8080
    streamURLaddrCell := "http://localhost:8080"
    cachePathCell := ""
    cacheMaxBytesCell := 128 * 1024 * 1024 }

/-- The configuration values the program works with. -/
structure Config where
  bindAddr : String
  port : Int
  streamURLaddr : String
  cachePath : String
  cacheMaxBytes : Int
  deriving DecidableEq, Repr

/-- Package-level variable initialisation: each variable is the dereference
of its freshly registered flag pointer (`bindAddr = *flag.String(...)`,
`src/main.go` lines 32-39), evaluated before `main` and hence before
`flag.Parse`. -/
def packageVarInit (cells : FlagCells) : Config :=
  { bindAddr := cells.bindAddrCell
    port := cells.portCell
    streamURLaddr := cells.streamURLaddrCell
    cachePath := cells.cachePathCell
    cacheMaxBytes := cells.cacheMaxBytesCell }

/-- One parsed command-line assignment `-name=value`, already split by flag
name; string-valued and int-valued flags are kept apart. -/
inductive FlagArg where
  | bindAddr (v : String)
  | port (v : Int)
  | streamURLaddr (v : String)
  | cachePath (v : String)
  | cacheMaxBytes (v : Int)
  deriving DecidableEq, Repr

/-- `flag.Parse`: overwrite the registered cells from the command line. -/
def parseFlags (argv : List FlagArg) (cells : FlagCells) : FlagCells :=
  argv.foldl
    (fun cs a =>
      match a with
      | .bindAddr v => { cs with bindAddrCell := v }
      | .port v => { cs with portCell := v }
      | .streamURLaddr v => { cs with streamURLaddrCell := v }
      | .cachePath v => { cs with cachePathCell := v }
      | .cacheMaxBytes v => { cs with cacheMaxBytesCell := v })
    cells

/-- Go's `strings.TrimSuffix s suf`: drop `suf` from the end of `s` when it
is there. -/
def trimSuffix (s suf : String) : String :=
  if suf.data.isSuffixOf s.data then
    ⟨s.data.take (s.data.length - suf.data.length)⟩
  else s

/-- Snapshot directory computation (`src/main.go` lines 88-97): an empty
`cachePath` flag value selects `os.UserCacheDir() ++ "/deflix-stremio"`,
a non-empty one is used as given minus a trailing slash; either way
`"/cache"` is appended. -/
def computeCachePath (cachePathFlag userCacheDir : String) : String :=
  (if cachePathFlag = "" then userCacheDir ++ "/deflix-stremio"
   else trimSuffix cachePathFlag ("/")) ++ "/cache"

/-- The program's startup as far as configuration goes: package-level
variable initialisation runs first (copying the defaults out of the cells),
then `main` calls `flag.Parse` — whose updated cells nothing reads any
more — and derives the snapshot path from the already-fixed `cachePath`
variable. -/
def startupConfig (argv : List FlagArg) (userCacheDir : String) :
    Config × String :=
  let cfg := packageVarInit registeredCells
  let _cellsAfterParse := parseFlags argv registeredCells
  (cfg, computeCachePath cfg.cachePath userCacheDir)

/-- The compiled-in flag defaults. -/
def defaultConfig : Config :=
  { bindAddr := "localhost"
    port := 8080
    streamURLaddr := "http://localhost:8080"
    cachePath := ""
    cacheMaxBytes := 134217728 }

/-- The capacity argument `cacheMaxBytes/4` each of the four
`fastcache.LoadFromFileOrNew` calls receives (`src/main.go` lines 98-101),
one list element per cache (token, availability, torrent, redirect). -/
def cacheCapacities (cacheMaxBytes : Int) : List Int :=
  [cacheMaxBytes / 4, cacheMaxBytes / 4, cacheMaxBytes / 4, cacheMaxBytes / 4]

/-! ## Cache snapshots and the file system

A `fastcache.Cache` is a byte-keyed, byte-valued store.  We model its
entry list, a flat byte encoding for its snapshot files (length-prefixed
key/value records), and the file system as an association list from path
to byte blob. -/

/-- One cache entry: a key and a value, both byte strings.  TTL information
of the application (creation timestamps of availability records, expiry of
unlocked streams, ...) is serialised inside the value bytes. -/
structure Entry where
  key : List Nat
  value : List Nat
  deriving DecidableEq, Repr

/-- Snapshot encoding of one entry: length-prefixed key, then
length-prefixed value. -/
def encodeEntry (e : Entry) : List Nat :=
  e.key.length :: e.key ++ e.value.length :: e.value

/-- Snapshot encoding of a whole cache: its entries, one record after the
other. -/
def encodeSnapshot (es : List Entry) : List Nat :=
  es.foldr (fun e acc => encodeEntry e ++ acc) []

/-- Snapshot decoding: parse length-prefixed records until the blob is
exhausted; `none` on a truncated blob. -/
def decodeSnapshot : List Nat → Option (List Entry)
  | [] => some []
  | kl :: rest =>
    if hk : kl ≤ rest.length then
      let key := rest.take kl
      match hr : rest.drop kl with
      | [] => none
      | vl :: rest2 =>
        if hv : vl ≤ rest2.length then
          (decodeSnapshot (rest2.drop vl)).map
            (fun es => { key := key, value := rest2.take vl } :: es)
        else none
    else none
termination_by bs => bs.length
decreasing_by
  simp only [List.length_cons, List.length_drop]
  have h2 : rest2.length < rest.length := by
    have := congrArg List.length hr
    simp only [List.length_drop, List.length_cons] at this
    omega
  omega

/-- The file system: an association list from path to byte blob; a write
prepends, a lookup finds the most recent write. -/
abbrev FS := List (String × List Nat)

/-- Read a file: the most recently written blob at `p`, if any. -/
def lookupFile (fs : FS) (p : String) : Option (List Nat) :=
  match fs with
  | [] => none
  | (q, bs) :: rest => if q = p then some bs else lookupFile rest p

/-- Write a file (create or overwrite). -/
def writeFile (fs : FS) (p : String) (bs : List Nat) : FS :=
  (p, bs) :: fs

/-- The four in-memory caches of `src/main.go` lines 68-73. -/
structure Caches where
  tokenCache : List Entry
  availabilityCache : List Entry
  torrentCache : List Entry
  redirectCache : List Entry
  deriving DecidableEq, Repr

/-- `fastcache.LoadFromFileOrNew path maxBytes` (library dependency,
documented semantics): restore the cache from the snapshot file at `path`;
when the file is absent or does not parse, return a new empty cache.  It
never fails. -/
def loadFromFileOrNew (fs : FS) (path : String) : List Entry :=
  match lookupFile fs path with
  | none => []
  | some bs => (decodeSnapshot bs).getD []

/-- Cache loading at startup (`src/main.go` lines 98-101): the four caches
are populated from the four snapshot files `cachePath ++ "/token"`,
`"/availability"`, `"/torrent"`, `"/redirect"`, each via
`fastcache.LoadFromFileOrNew`. -/
def startupLoad (fs : FS) (cachePath : String) : Caches :=
  { tokenCache := loadFromFileOrNew fs (cachePath ++ "/token")
    availabilityCache := loadFromFileOrNew fs (cachePath ++ "/availability")
    torrentCache := loadFromFileOrNew fs (cachePath ++ "/torrent")
    redirectCache := loadFromFileOrNew fs (cachePath ++ "/redirect") }

/-- `persistCache` (`src/main.go` lines 209-229): when the stopping flag is
set, return without saving anything; otherwise save each of the four caches
to its snapshot file.  The in-memory caches are only read, never written. -/
def persistCache (cacheFilePath : String) (stopping : Bool)
    (caches : Caches) (fs : FS) : Caches × FS :=
  if stopping then (caches, fs)
  else
    let fs1 := writeFile fs (cacheFilePath ++ "/token")
      (encodeSnapshot caches.tokenCache)
    let fs2 := writeFile fs1 (cacheFilePath ++ "/availability")
      (encodeSnapshot caches.availabilityCache)
    let fs3 := writeFile fs2 (cacheFilePath ++ "/torrent")
      (encodeSnapshot caches.torrentCache)
    let fs4 := writeFile fs3 (cacheFilePath ++ "/redirect")
      (encodeSnapshot caches.redirectCache)
    (caches, fs4)

/-! ## Shutdown (`src/main.go` lines 190-207) -/

/-- The process state the shutdown path touches. -/
structure ServerState where
  stopping : Bool
  caches : Caches
  fs : FS

/-- The shutdown path of `main` (`src/main.go` lines 195-206): on receiving
SIGINT/SIGTERM, set the stopping flag and shut the HTTP server down; `main`
then returns.  No cache persistence call appears anywhere in this path. -/
def shutdownSequence (st : ServerState) : ServerState :=
  { st with stopping := true }

/-! ## Routing (`src/main.go` lines 107-129)

`main` registers four GET routes.  The token middleware
(`createTokenMiddleware(conversionClient)`) is applied to the manifest and
stream routes only; the health and redirect routes are registered bare. -/

/-- The handlers `main` registers. -/
inductive Handler where
  | health
  | manifest
  | stream
  | redirect
  deriving DecidableEq, Repr

/-- One registered route: its pattern, whether it is wrapped in the token
middleware, and its handler. -/
structure Route where
  pattern : String
  tokenValidated : Bool
  handler : Handler
  deriving DecidableEq, Repr

/-- The route table of `src/main.go` lines 113-129:
`/health` (line 113), `/{apitoken}/manifest.json` (line 123) and
`/{apitoken}/stream/{type}/{id}.json` (line 124) — the latter two wrapped
in `tokenMiddleware` — and `/redirect/{id}` (line 129), registered without
the token middleware. -/
def routes : List Route :=
  [ { pattern := "/health", tokenValidated := false, handler := .health }
  , { pattern := "/\x7bapitoken\x7d/manifest.json",
      tokenValidated := true, handler := .manifest }
  , { pattern := "/\x7bapitoken\x7d/stream/\x7btype\x7d/\x7bid\x7d.json",
      tokenValidated := true, handler := .stream }
  , { pattern := "/redirect/\x7bid\x7d",
      tokenValidated := false, handler := .redirect } ]

/-- Modelled from the spec: the body of `createTokenMiddleware` is not under
`src/`; per the spec the middleware validates the request's credential and
only then lets the handler run.  Dispatching a request thus runs the
credential check exactly when the route is wrapped in the middleware:
a wrapped route with an invalid credential never reaches its handler,
an unwrapped route reaches its handler with no credential check at all. -/
def dispatch (validate : String → Bool) (r : Route) (credential : String) :
    Option Handler :=
  if r.tokenValidated && !validate credential then none
  else some r.handler

/-! ## Stream handler (spec-modelled)

`createStreamHandler(searchClient, conversionClient, redirectCache)` is
registered in `src/main.go` line 122 but its body is not under `src/`. -/

/-- A stream option as returned to the catalog client. -/
structure StreamOption where
  title : String
  url : String
  deriving DecidableEq, Repr

/-- A torrent candidate as the spec's data model has it. -/
structure TorrentCandidate where
  title : String
  quality : String
  infoHash : String
  size : Nat
  sources : List String
  deriving DecidableEq, Repr

/-- A redirect ticket: target descriptor plus creation time (spec §3). -/
structure RedirectTicket where
  infoHash : String
  fileSelector : String
  createdAt : Nat
  deriving DecidableEq, Repr

/-- The debrid provider as seen by the handlers: a per-hash availability
check and the unlock operation yielding the direct (secret-bearing) URL. -/
structure Provider where
  available : String → Bool
  unlock : String → String

/-- A ticket URL: `{base}/redirect/{ticketID}` (spec §6). -/
def mkStreamURL (base ticketID : String) : String :=
  base ++ "/redirect/" ++ ticketID

/-- Modelled from the spec: the body of `createStreamHandler` is not under
`src/`.  Per the spec, the handler takes the available candidates, mints one
opaque redirect ticket id per candidate (`IssueTicket` is pure, no provider
call), stores the ticket in the redirect cache, and returns one
`{title, url}` stream option per candidate whose `url` is the ticket URL
`{base}/redirect/{ticketID}`.  The provider's `unlock` is never consulted on
this path — only the availability check is. -/
def streamEndpoint (p : Provider) (base : String) (now : Nat)
    (cands : List TorrentCandidate) (freshIDs : List String) :
    List StreamOption × List (String × RedirectTicket) :=
  let avail := cands.filter (fun c => p.available c.infoHash)
  let paired := avail.zip freshIDs
  ( paired.map (fun ci => { title := ci.1.title
                            url := mkStreamURL base ci.2 })
  , paired.map (fun ci =>
      (ci.2, { infoHash := ci.1.infoHash, fileSelector := ci.1.title
               createdAt := now })) )

/-! ## Redirect resolution (spec-modelled)

`createRedirectHandler(redirectCache, conversionClient)` is registered in
`src/main.go` line 129 but its body is not under `src/`. -/

/-- The error taxonomy of spec §7 that `Resolve` can surface. -/
inductive ResolveError where
  | TicketExpired
  | NotCached
  | QuotaExceeded
  deriving DecidableEq, Repr

/-- A cached unlocked stream: direct URL plus its provider-side expiry
(spec §3, `UnlockedStream`). -/
structure UnlockedStream where
  directURL : String
  expiresAt : Nat
  deriving DecidableEq, Repr

/-- Association-list lookup keyed by strings. -/
def lookupAssoc {α : Type} (l : List (String × α)) (k : String) : Option α :=
  match l with
  | [] => none
  | (q, v) :: rest => if q = k then some v else lookupAssoc rest k

/-- Modelled from the spec: `Resolve(session, redirectID)` (spec §4.4); the
body is not under `src/`.  Resolution path: look the ticket up in the
redirect cache and fail with `TicketExpired` when it is absent or its own
TTL has elapsed; otherwise, when a still-valid `UnlockedStream` entry exists
for the ticket's info-hash, return its direct URL; otherwise call the
provider's unlock and cache the result.  Ticket expiry is checked first, so
it takes precedence over the `UnlockedStream` cache. -/
def resolve (tickets : List (String × RedirectTicket))
    (unlocked : List (String × UnlockedStream))
    (unlock : String → Except ResolveError UnlockedStream)
    (now ticketTTL : Nat) (redirectID : String) :
    Except ResolveError String × List (String × UnlockedStream) :=
  match lookupAssoc tickets redirectID with
  | none => (.error .TicketExpired, unlocked)
  | some t =>
    if t.createdAt + ticketTTL ≤ now then (.error .TicketExpired, unlocked)
    else
      match lookupAssoc unlocked t.infoHash with
      | some us =>
        if now < us.expiresAt then (.ok us.directURL, unlocked)
        else
          match unlock t.infoHash with
          | .error e => (.error e, unlocked)
          | .ok us2 => (.ok us2.directURL, (t.infoHash, us2) :: unlocked)
      | none =>
        match unlock t.infoHash with
        | .error e => (.error e, unlocked)
        | .ok us2 => (.ok us2.directURL, (t.infoHash, us2) :: unlocked)

/-! ## Search aggregation (spec-modelled)

`imdb2torrent.NewClient(5*time.Second, torrentCache)` is constructed in
`src/main.go` line 118 but the package body is not under `src/`. -/

/-- Merge one candidate into the accumulated, already-deduplicated list:
when a candidate with the same info-hash is present, only its provenance
list grows (first-seen metadata wins); otherwise the candidate is appended
(spec §3, §4.2). -/
def mergeCandidate (acc : List TorrentCandidate) (c : TorrentCandidate) :
    List TorrentCandidate :=
  if acc.any (fun a => a.infoHash = c.infoHash) then
    acc.map (fun a =>
      if a.infoHash = c.infoHash then { a with sources := a.sources ++ c.sources }
      else a)
  else acc ++ [c]

/-- Deduplicate a candidate sequence by info-hash, left to right. -/
def dedupByInfoHash (cs : List TorrentCandidate) : List TorrentCandidate :=
  cs.foldl mergeCandidate []

/-- Modelled from the spec: `SearchAggregator.Search` (spec §4.2); the
`imdb2torrent` package body is not under `src/`.  The adapters' result
sequences (those that returned before the deadline) are concatenated and
deduplicated by info-hash; the second component reports whether any adapter
failed (`partial`, spec §4.2).  Quality/size ordering is not modelled: the
dedup claim is ordering-independent. -/
def search (adapterResults : List (Option (List TorrentCandidate))) :
    List TorrentCandidate × Bool :=
  ( dedupByInfoHash (adapterResults.filterMap id).flatten
  , adapterResults.any (fun r => r.isNone) )

/-! ## Single-flight unlock (spec-modelled)

Spec §5: `Unlock` collapses concurrent callers for the same info-hash into
a single provider call.  We model the per-info-hash unlock coordination as
a transition system over the shared state the concurrent `Resolve` calls
touch; any number of resolver threads corresponds to an arbitrary
interleaving of these steps. -/

/-- Shared per-info-hash unlock state: whether an unlock call is in flight,
whether a result is already cached, and how often the provider has been
invoked. -/
structure SFState where
  inflight : Bool
  cached : Bool
  providerCalls : Nat
  deriving DecidableEq, Repr

/-- The initial state: nothing cached, nothing in flight, provider never
called. -/
def sfInit : SFState := { inflight := false, cached := false, providerCalls := 0 }

/-- Modelled from the spec: the in-flight dedup keyed by info-hash (spec §5,
§4.4); the `realdebrid` package body is not under `src/`.  A resolver that
finds a cached result uses it (no state change); a resolver that finds an
unlock in flight joins it (no state change); a resolver that finds neither
atomically marks the unlock in flight and invokes the provider; a finishing
unlock caches its result and clears the in-flight mark. -/
inductive SFStep : SFState → SFState → Prop
  | invoke (s : SFState) (h1 : s.inflight = false) (h2 : s.cached = false) :
      SFStep s { s with inflight := true, providerCalls := s.providerCalls + 1 }
  | finish (s : SFState) (h : s.inflight = true) :
      SFStep s { s with inflight := false, cached := true }

/-- Reachability under any interleaving of resolver steps. -/
def SFReachable (s : SFState) : Prop :=
  Relation.ReflTransGen SFStep sfInit s

/-! ## Concrete example values used by witnesses and counterexamples -/

/-- A populated cache state: one token entry, the other caches empty. -/
def exCaches : Caches :=
  { tokenCache := [{ key := [1], value := [2] }]
    availabilityCache := []
    torrentCache := []
    redirectCache := [] }

/-- A running server: not stopping, populated caches, no snapshot files. -/
def exServerState : ServerState :=
  { stopping := false, caches := exCaches, fs := [] }

/-- A provider whose unlock returns a secret-bearing direct URL. -/
def exProvider : Provider :=
  { available := fun _ => true
    unlock := fun _ => "https://provider/secret-key/file.mkv" }

/-- A torrent candidate. -/
def exCand : TorrentCandidate :=
  { title := "Movie 1080p", quality := "1080p", infoHash := "abc123"
    size := 700, sources := ["indexer1"] }

/-- A ticket minted at time 0. -/
def exTicket : RedirectTicket :=
  { infoHash := "abc123", fileSelector := "f", createdAt := 0 }

/-- A cached unlocked stream valid until time 100. -/
def exUnlocked : UnlockedStream :=
  { directURL := "https://provider/secret-key/file.mkv", expiresAt := 100 }

/-! ## Helper lemmas -/

/-- Appending distinct suffixes to the same path yields distinct paths. -/
theorem appendNe (p a b : String) (h : a ≠ b) : p ++ a ≠ p ++ b := by
  intro he
  apply h
  have hd : (p ++ a).data = (p ++ b).data := congrArg String.data he
  rw [String.data_append, String.data_append] at hd
  have h2 := List.append_cancel_left hd
  cases a; cases b; exact congrArg String.mk h2

/-- Reading a freshly written file returns its blob. -/
theorem lookupFile_cons_eq (q : String) (bs : List Nat) (rest : FS) :
    lookupFile ((q, bs) :: rest) q = some bs := by
  simp [lookupFile]

/-- Reading past a file with a different path. -/
theorem lookupFile_cons_ne (q : String) (bs : List Nat) (rest : FS)
    (p : String) (h : q ≠ p) : lookupFile ((q, bs) :: rest) p = lookupFile rest p := by
  simp [lookupFile, h]

/-- Decoding the empty blob yields the empty cache. -/
theorem decodeSnapshot_nil : decodeSnapshot [] = some [] := by
  rw [decodeSnapshot]

/-- Decoding a well-formed leading record peels it off. -/
theorem decodeSnapshot_record (key value rest : List Nat) :
    decodeSnapshot (key.length :: (key ++ value.length :: (value ++ rest)))
      = (decodeSnapshot rest).map (fun es => { key := key, value := value } :: es) := by
  rw [decodeSnapshot]
  have h1 : key.length ≤ (key ++ value.length :: (value ++ rest)).length := by
    simp
  rw [dif_pos h1]
  have hd : (key ++ value.length :: (value ++ rest)).drop key.length
      = value.length :: (value ++ rest) := List.drop_left _ _
  have ht : (key ++ value.length :: (value ++ rest)).take key.length = key :=
    List.take_left _ _
  split
  case _ heq =>
    rw [hd] at heq
    exact absurd heq (by simp)
  case _ vl rest2 heq =>
    rw [hd] at heq
    injection heq with h2 h3
    subst h2
    subst h3
    have hv : value.length ≤ (value ++ rest).length := by simp
    rw [dif_pos hv]
    simp [List.take_left, List.drop_left, ht]

/-- The snapshot encoding decodes back to the entry list it came from. -/
theorem decode_encode (es : List Entry) :
    decodeSnapshot (encodeSnapshot es) = some es := by
  induction es with
  | nil => exact decodeSnapshot_nil
  | cons e tail ih =>
    have hshape : encodeSnapshot (e :: tail)
        = e.key.length :: (e.key ++ e.value.length :: (e.value ++ encodeSnapshot tail)) := by
      simp [encodeSnapshot, encodeEntry]
    rw [hshape, decodeSnapshot_record, ih]
    rfl

/-- Merging one candidate preserves pairwise-distinct info-hashes. -/
theorem mergeCandidate_pairwise (acc : List TorrentCandidate) (c : TorrentCandidate)
    (h : acc.Pairwise (fun a b => a.infoHash ≠ b.infoHash)) :
    (mergeCandidate acc c).Pairwise (fun a b => a.infoHash ≠ b.infoHash) := by
  unfold mergeCandidate
  split
  case isTrue hmem =>
    rw [List.pairwise_map]
    refine h.imp ?_
    intro a b hab
    have ka : ∀ x : TorrentCandidate,
        (if x.infoHash = c.infoHash then { x with sources := x.sources ++ c.sources }
         else x).infoHash = x.infoHash := by
      intro x
      by_cases hx : x.infoHash = c.infoHash <;> simp [hx]
    rw [ka a, ka b]
    exact hab
  case isFalse hmem =>
    rw [List.pairwise_append]
    refine ⟨h, List.pairwise_singleton _ _, ?_⟩
    intro a ha b hb
    simp only [List.mem_singleton] at hb
    subst hb
    simp only [List.any_eq_true, decide_eq_true_eq, not_exists, not_and] at hmem
    intro hcontra
    exact hmem a ha hcontra

/-- Folding `mergeCandidate` over any input preserves the dedup invariant. -/
theorem foldl_merge_pairwise (cs : List TorrentCandidate) (acc : List TorrentCandidate)
    (h : acc.Pairwise (fun a b => a.infoHash ≠ b.infoHash)) :
    (cs.foldl mergeCandidate acc).Pairwise (fun a b => a.infoHash ≠ b.infoHash) := by
  induction cs generalizing acc with
  | nil => exact h
  | cons c cs ih => exact ih _ (mergeCandidate_pairwise _ _ h)

/-- Every state reachable by interleaved resolver steps satisfies the
single-flight invariant: the provider was called at most once, and when
nothing is in flight and nothing cached it was not called at all. -/
theorem sf_invariant (s : SFState) (h : SFReachable s) :
    s.providerCalls ≤ 1
      ∧ (s.inflight = false → s.cached = false → s.providerCalls = 0) := by
  induction h with
  | refl => exact ⟨by simp [sfInit], fun _ _ => rfl⟩
  | tail hsteps hstep ih =>
    cases hstep with
    | invoke h1 h2 =>
      refine ⟨?_, ?_⟩
      · have h0 := ih.2 h1 h2
        simp [h0]
      · intro hin
        simp at hin
    | finish h1 =>
      refine ⟨ih.1, ?_⟩
      intro _ hc
      simp at hc

/-! ## Claim theorems -/

/-- C3: for every command-line argument vector, the configuration values the
program uses equal the compiled-in flag defaults — the package-level
variables dereference the flag pointers before `flag.Parse` runs, so parsed
values are never observed; in particular every one of the four caches is
created with a 32 MB (33554432-byte) ceiling and the snapshot path is
always derived from `os.UserCacheDir()`. -/
theorem config_ignores_argv (argv : List FlagArg) (userCacheDir : String) :
    (startupConfig argv userCacheDir).1 = defaultConfig
  ∧ (startupConfig argv userCacheDir).2 = userCacheDir ++ "/deflix-stremio" ++ "/cache"
  ∧ cacheCapacities (startupConfig argv userCacheDir).1.cacheMaxBytes
      = [33554432, 33554432, 33554432, 33554432] := by
  refine ⟨?_, ?_, ?_⟩
  · simp [startupConfig, packageVarInit, registeredCells, defaultConfig]
  · simp [startupConfig, packageVarInit, registeredCells, computeCachePath]
  · simp [startupConfig, packageVarInit, registeredCells, cacheCapacities]

/-- C5: a periodic cache-snapshot cycle never writes any snapshot file once
the shutdown flag is set — `persistCache` checks the flag first and, when
it is true, returns leaving every snapshot file and every in-memory cache
unchanged. -/
theorem persistCache_skips_when_stopping (cacheFilePath : String)
    (caches : Caches) (fs : FS) :
    persistCache cacheFilePath true caches fs = (caches, fs) := by
  simp [persistCache]

/-- C6: startup loads exactly the four snapshot files
`{cachePath}/token`, `/availability`, `/torrent`, `/redirect` — the loaded
caches depend on no other file — and for each of the four, absence of its
file is not an error: the corresponding cache starts empty. -/
theorem startupLoad_four_files (fs : FS) (p : String) :
    (lookupFile fs (p ++ "/token") = none → (startupLoad fs p).tokenCache = [])
  ∧ (lookupFile fs (p ++ "/availability") = none →
      (startupLoad fs p).availabilityCache = [])
  ∧ (lookupFile fs (p ++ "/torrent") = none → (startupLoad fs p).torrentCache = [])
  ∧ (lookupFile fs (p ++ "/redirect") = none → (startupLoad fs p).redirectCache = [])
  ∧ (∀ fs2 : FS,
      lookupFile fs2 (p ++ "/token") = lookupFile fs (p ++ "/token") →
      lookupFile fs2 (p ++ "/availability") = lookupFile fs (p ++ "/availability") →
      lookupFile fs2 (p ++ "/torrent") = lookupFile fs (p ++ "/torrent") →
      lookupFile fs2 (p ++ "/redirect") = lookupFile fs (p ++ "/redirect") →
      startupLoad fs2 p = startupLoad fs p) := by
  refine ⟨?_, ?_, ?_, ?_, ?_⟩
  · intro h; simp [startupLoad, loadFromFileOrNew, h]
  · intro h; simp [startupLoad, loadFromFileOrNew, h]
  · intro h; simp [startupLoad, loadFromFileOrNew, h]
  · intro h; simp [startupLoad, loadFromFileOrNew, h]
  · intro fs2 h1 h2 h3 h4
    simp [startupLoad, loadFromFileOrNew, h1, h2, h3, h4]

/-- Witness for C6 at a concrete file system: with no files at all every
cache starts empty, and a file at an unrelated path changes nothing. -/
theorem startupLoad_four_files_witness :
    (startupLoad [] ("p")).tokenCache = []
  ∧ (startupLoad [] ("p")).availabilityCache = []
  ∧ (startupLoad [] ("p")).torrentCache = []
  ∧ (startupLoad [] ("p")).redirectCache = []
  ∧ startupLoad [(("other"), [1, 2])] ("p") = startupLoad [] ("p") :=
  ⟨(startupLoad_four_files [] ("p")).1 rfl,
   (startupLoad_four_files [] ("p")).2.1 rfl,
   (startupLoad_four_files [] ("p")).2.2.1 rfl,
   (startupLoad_four_files [] ("p")).2.2.2.1 rfl,
   (startupLoad_four_files [] ("p")).2.2.2.2 [(("other"), [1, 2])]
     (by decide) (by decide) (by decide) (by decide)⟩

/-- C7: snapshot-then-restore is a round trip — persisting any cache state
and constructing fresh caches from the written snapshot files yields
exactly the same key/value state, and hence the same TTL-remaining state at
the same clock instant. -/
theorem snapshot_restore_roundtrip (c : Caches) (fs : FS) (p : String) :
    startupLoad (persistCache p false c fs).2 p = c := by
  have hrt := appendNe p ("/redirect") ("/token") (by decide)
  have hot := appendNe p ("/torrent") ("/token") (by decide)
  have hat := appendNe p ("/availability") ("/token") (by decide)
  have hra := appendNe p ("/redirect") ("/availability") (by decide)
  have hoa := appendNe p ("/torrent") ("/availability") (by decide)
  have hro := appendNe p ("/redirect") ("/torrent") (by decide)
  cases c with
  | mk tk av tc rc =>
    simp only [persistCache, if_neg Bool.false_ne_true, writeFile, startupLoad,
      loadFromFileOrNew]
    rw [lookupFile_cons_ne _ _ _ _ hrt, lookupFile_cons_ne _ _ _ _ hot,
        lookupFile_cons_ne _ _ _ _ hat, lookupFile_cons_eq,
        lookupFile_cons_ne _ _ _ _ hra, lookupFile_cons_ne _ _ _ _ hoa,
        lookupFile_cons_eq,
        lookupFile_cons_ne _ _ _ _ hro, lookupFile_cons_eq,
        lookupFile_cons_eq]
    simp [decode_encode]

/-- C1: every stream option returned to the catalog client carries a
RedirectResolver ticket URL of the form `{base}/redirect/{ticketID}` whose
id is one of the freshly minted opaque ids, and the whole stream response
is independent of the provider's unlock operation — the direct
(secret-bearing) URL can therefore never appear in it. -/
theorem stream_response_only_ticket_urls (p : Provider) (u2 : String → String)
    (base : String) (now : Nat) (cands : List TorrentCandidate)
    (freshIDs : List String) (opt : StreamOption)
    (h : opt ∈ (streamEndpoint p base now cands freshIDs).1) :
    (∃ tid ∈ freshIDs, opt.url = base ++ "/redirect/" ++ tid)
  ∧ streamEndpoint p base now cands freshIDs
      = streamEndpoint { p with unlock := u2 } base now cands freshIDs := by
  constructor
  · simp only [streamEndpoint] at h
    obtain ⟨ci, hci, heq⟩ := List.mem_map.mp h
    subst heq
    exact ⟨ci.2, (List.of_mem_zip hci).2, rfl⟩
  · rfl

/-- Witness for C1 at a concrete request: one candidate, one fresh id. -/
theorem stream_response_only_ticket_urls_witness :
    (∃ tid ∈ [("tic1")],
      ({ title := "Movie 1080p", url := "http://x/redirect/tic1" } : StreamOption).url
        = "http://x" ++ "/redirect/" ++ tid)
  ∧ streamEndpoint exProvider ("http://x") 5 [exCand] [("tic1")]
      = streamEndpoint { exProvider with unlock := fun _ => ("other") }
          ("http://x") 5 [exCand] [("tic1")] :=
  stream_response_only_ticket_urls exProvider (fun _ => ("other")) ("http://x") 5
    [exCand] [("tic1")] { title := "Movie 1080p", url := "http://x/redirect/tic1" }
    (by decide)

/-- C2 counterexample: the redirect-resolution route is registered in the
route table (`src/main.go` line 129) without the token middleware, and its
handler runs even when credential validation rejects everything — so not
every stream-resolution-pipeline request has the credential validated
before its handler runs. -/
theorem redirect_route_unvalidated_cex :
    ({ pattern := "/redirect/\x7bid\x7d", tokenValidated := false,
       handler := Handler.redirect } : Route) ∈ routes
  ∧ dispatch (fun _ => false)
      { pattern := "/redirect/\x7bid\x7d", tokenValidated := false,
        handler := Handler.redirect } ("anything") = some Handler.redirect :=
  ⟨by decide, rfl⟩

/-- C2 (amended): the manifest and stream routes are wrapped in the token
middleware, so for those two endpoints an invalid credential never reaches
the handler; the redirect route is registered without it. -/
theorem token_validation_manifest_stream (validate : String → Bool)
    (cred : String) (r : Route) (hr : r ∈ routes)
    (hh : r.handler = Handler.manifest ∨ r.handler = Handler.stream)
    (hv : validate cred = false) :
    dispatch validate r cred = none := by
  simp only [routes, List.mem_cons, List.mem_singleton] at hr
  rcases hr with h | h | h | h | h <;> first
    | (subst h; simp_all [dispatch])
    | exact absurd h (by simp)

/-- Witness for C2 (amended) at the concrete manifest route with a
credential check that rejects everything. -/
theorem token_validation_manifest_stream_witness :
    dispatch (fun _ => false)
      { pattern := "/\x7bapitoken\x7d/manifest.json",
        tokenValidated := true, handler := Handler.manifest } ("t") = none :=
  token_validation_manifest_stream (fun _ => false) ("t")
    { pattern := "/\x7bapitoken\x7d/manifest.json",
      tokenValidated := true, handler := Handler.manifest }
    (by decide) (Or.inl rfl) rfl

/-- C4 counterexample: at a concrete running state with a populated token
cache and no snapshot files, the shutdown path writes nothing — the token
snapshot file still does not exist afterwards, even if the hourly persister
fires during the shutdown window, because the stopping flag suppresses it.
The claim that all four stores are flushed one final time at shutdown is
therefore false. -/
theorem shutdown_final_flush_cex :
    (shutdownSequence exServerState).fs = ([] : FS)
  ∧ exServerState.caches.tokenCache ≠ []
  ∧ lookupFile
      (persistCache ("p") (shutdownSequence exServerState).stopping
        (shutdownSequence exServerState).caches (shutdownSequence exServerState).fs).2
      ("p" ++ "/token") = none
  ∧ ¬ (lookupFile
      (persistCache ("p") (shutdownSequence exServerState).stopping
        (shutdownSequence exServerState).caches (shutdownSequence exServerState).fs).2
      ("p" ++ "/token")
      = some (encodeSnapshot exServerState.caches.tokenCache)) := by
  refine ⟨rfl, by decide, by decide, by decide⟩

/-- C4 (amended): at process shutdown no final flush is performed — the
shutdown path only sets the stopping flag and leaves every snapshot file
and every cache untouched, and with the flag set a periodic persistence
cycle writes nothing either. -/
theorem shutdown_no_flush (st : ServerState) (p : String) :
    (shutdownSequence st).fs = st.fs
  ∧ (shutdownSequence st).caches = st.caches
  ∧ (shutdownSequence st).stopping = true
  ∧ persistCache p (shutdownSequence st).stopping (shutdownSequence st).caches
      (shutdownSequence st).fs = ((shutdownSequence st).caches, (shutdownSequence st).fs) :=
  ⟨rfl, rfl, rfl, by simp [persistCache, shutdownSequence]⟩

/-- C8: no two candidates returned by `Search` share an info-hash — the
merged adapter results are deduplicated by info-hash before being
returned. -/
theorem search_dedup_by_infohash
    (adapterResults : List (Option (List TorrentCandidate))) :
    ((search adapterResults).1).Pairwise (fun a b => a.infoHash ≠ b.infoHash) :=
  foldl_merge_pairwise _ _ List.Pairwise.nil

/-- C9: whenever the ticket's own TTL has elapsed, `Resolve` returns
`TicketExpired` and caches nothing — regardless of the `UnlockedStream`
cache contents, so ticket expiry takes precedence on every call. -/
theorem resolve_ticket_expiry_precedence
    (tickets : List (String × RedirectTicket))
    (unlocked : List (String × UnlockedStream))
    (unlock : String → Except ResolveError UnlockedStream)
    (now ticketTTL : Nat) (rid : String) (t : RedirectTicket)
    (hfound : lookupAssoc tickets rid = some t)
    (hexp : t.createdAt + ticketTTL ≤ now) :
    resolve tickets unlocked unlock now ticketTTL rid
      = (.error .TicketExpired, unlocked) := by
  simp [resolve, hfound, if_pos hexp]

/-- Witness for C9: a ticket minted at time 0 with TTL 10 queried at time
10, while a still-valid `UnlockedStream` entry for its info-hash sits in
the cache and the provider would happily unlock. -/
theorem resolve_ticket_expiry_precedence_witness :
    lookupAssoc [(("r1"), exTicket)] ("r1") = some exTicket
  ∧ exTicket.createdAt + 10 ≤ 10
  ∧ resolve [(("r1"), exTicket)] [(("abc123"), exUnlocked)]
      (fun _ => .ok exUnlocked) 10 10 ("r1")
      = (.error .TicketExpired, [(("abc123"), exUnlocked)]) :=
  ⟨by decide, by decide,
   resolve_ticket_expiry_precedence [(("r1"), exTicket)] [(("abc123"), exUnlocked)]
     (fun _ => .ok exUnlocked) 10 10 ("r1") exTicket (by decide) (by decide)⟩

/-- C10: in every state reachable by any interleaving of concurrent
`Resolve` steps for one info-hash, the provider's `Unlock` has been invoked
at most once — the in-flight single-flight dedup collapses concurrent
callers. -/
theorem unlock_single_flight (s : SFState) (h : SFReachable s) :
    s.providerCalls ≤ 1 :=
  (sf_invariant s h).1

/-- Witness for C10 at the state reached after one resolver actually
started the provider call. -/
theorem unlock_single_flight_witness :
    ({ inflight := true, cached := false, providerCalls := 1 } : SFState).providerCalls ≤ 1 :=
  unlock_single_flight _ (Relation.ReflTransGen.single (SFStep.invoke sfInit rfl rfl))

end DeflixStremio
